import Mathlib

/-!
Shallow embedding of zerver/lib/home.py (Zulip home-page snapshot assembly).

The module under verification builds the initial "page_params" snapshot sent
to the client on a home-page load.  Python dictionaries are modelled as
insertion-ordered association lists over String keys with overwrite-in-place
update (the semantics of CPython dict assignment); Python values that can
appear in the snapshot are modelled by the inductive type Value.

External collaborators (the event-queue subsystem, the corporate billing
models, the i18n subsystem, the two-factor subsystem, the ORM message store)
are not part of the source file; they are passed in as explicit store /
environment records so that every function stays pure and the claims can be
quantified over their behaviour.
-/

namespace Home

/-- Python values that occur in the page_params snapshot. -/
inductive Value where
  | vBool : Bool → Value
  | vInt : Int → Value
  | vStr : String → Value
  | vNone : Value
  | vList : List Value → Value
  | vDict : List (String × Value) → Value

/-- An insertion-ordered Python dict with String keys. -/
abbrev Dict := List (String × Value)

/-- Dict lookup, d[k]: the value of the first entry with key k. -/
def dictGet (d : Dict) (k : String) : Option Value :=
  match d with
  | [] => Option.none
  | (k', v) :: rest => if k = k' then some v else dictGet rest k

/-- Dict assignment, d[k] = v: overwrite in place when the key exists,
append at the end otherwise (CPython insertion-order semantics). -/
def dictSet (d : Dict) (k : String) (v : Value) : Dict :=
  match d with
  | [] => [(k, v)]
  | (k', v') :: rest => if k = k' then (k', v) :: rest else (k', v') :: dictSet rest k v

/-- Python subscription v[k] on an arbitrary value: succeeds only when v is a
dict holding the key; every other case raises (TypeError / KeyError),
modelled as failure. -/
def subscript (v : Value) (k : String) : Option Value :=
  match v with
  | Value.vDict d => dictGet d k
  | _ => Option.none

/-- The keys of a dict, in order. -/
def dictKeys (d : Dict) : List String := d.map (fun kv => kv.1)

/-- Realm (tenant) record: the fields of zerver.models.Realm read by home.py. -/
structure Realm where
  id : Nat
  plan_type : Nat
  webathena_enabled : Bool
deriving DecidableEq

/-- Realm.SELF_HOSTED plan-type constant. -/
def Realm.SELF_HOSTED : Nat := 1

/-- Realm.LIMITED plan-type constant. -/
def Realm.LIMITED : Nat := 2

/-- Realm.STANDARD plan-type constant. -/
def Realm.STANDARD : Nat := 3

/-- Realm.STANDARD_FREE plan-type constant. -/
def Realm.STANDARD_FREE : Nat := 4

/-- UserProfile record: the fields of zerver.models.UserProfile read by
home.py.  The realm reference is inlined as a Realm value. -/
structure UserProfile where
  id : Nat
  realm : Realm
  color_scheme : Nat
  is_guest : Bool
  is_realm_admin : Bool
  is_realm_owner : Bool
  has_billing_access : Bool
  allowed_bot_types : List Nat
deriving DecidableEq

/-- UserProfile.COLOR_SCHEME_AUTOMATIC constant. -/
def UserProfile.COLOR_SCHEME_AUTOMATIC : Nat := 1

/-- Modelled from the spec: UserProfile.BOT_TYPES (zerver/models.py, not in
src/) is the fixed mapping of every known bot type id to its display name;
only its entry set matters to the claims. -/
def UserProfile.BOT_TYPES : List (Nat × String) :=
  [(1, "Generic bot"), (2, "Incoming webhook"), (3, "Outgoing webhook"), (4, "Embedded bot")]

/-- A datetime, reduced to the data home.py extracts from it:
calendar.timegm(dt.utctimetuple()) yields its UTC epoch timestamp. -/
structure DateTime where
  utc_epoch : Int
deriving DecidableEq

/-- The calendar.timegm(dt.utctimetuple()) conversion used by
get_furthest_read_time: extracts the UTC epoch timestamp. -/
def calendar_timegm_utctimetuple (dt : DateTime) : Int := dt.utc_epoch

/-- A UserActivity row as consumed by get_furthest_read_time. -/
structure UserActivity where
  last_visit : DateTime
deriving DecidableEq

/-- The per-user activity store:
get_latest_update_message_flag_activity (zerver/views/message_flags.py, an
external collaborator) looks up the most recent update-message-flag activity
record for a user, or none. -/
structure ActivityStore where
  get_latest_update_message_flag_activity : UserProfile → Option UserActivity

/-- A billing Customer record (corporate.models, external collaborator). -/
structure Customer where
  id : Nat
  sponsorship_pending : Bool
deriving DecidableEq

/-- The billing store: get_customer_by_realm looks up the customer record
for a realm (by realm id), plan_exists models
CustomerPlan.objects.filter(customer=c).exists(). -/
structure BillingStore where
  get_customer_by_realm : Nat → Option Customer
  plan_exists : Nat → Bool

/-- Django settings (process-wide configuration) read by home.py. -/
structure Settings where
  CORPORATE_ENABLED : Bool
  PROMOTE_SPONSORING_ZULIP : Bool
  TWO_FACTOR_AUTHENTICATION_ENABLED : Bool
  TEST_SUITE : Bool
  HOME_NOT_LOGGED_IN : String
  WARN_NO_EMAIL : Bool
  SEARCH_PILLS_ENABLED : Bool

/-- BillingInfo dataclass. -/
structure BillingInfo where
  show_billing : Bool
  show_plans : Bool
deriving DecidableEq

/-- UserPermissionInfo dataclass. -/
structure UserPermissionInfo where
  color_scheme : Nat
  is_guest : Bool
  is_realm_admin : Bool
  is_realm_owner : Bool
  show_webathena : Bool
deriving DecidableEq

/-- get_furthest_read_time (home.py lines 38-46).  time.time() is modelled by
the explicit wall-clock argument now. -/
def get_furthest_read_time (A : ActivityStore) (now : Int)
    (user_profile : Option UserProfile) : Option Int :=
  match user_profile with
  | Option.none => some now
  | some up =>
    match A.get_latest_update_message_flag_activity up with
    | Option.none => Option.none
    | some user_activity => some (calendar_timegm_utctimetuple user_activity.last_visit)

/-- get_bot_types (home.py lines 49-62). -/
def get_bot_types (user_profile : Option UserProfile) : List Value :=
  match user_profile with
  | Option.none => []
  | some up =>
    UserProfile.BOT_TYPES.map (fun tn =>
      Value.vDict
        [("type_id", Value.vInt (Int.ofNat tn.1)),
         ("name", Value.vStr tn.2),
         ("allowed", Value.vBool (tn.1 ∈ up.allowed_bot_types))])

/-- promote_sponsoring_zulip_in_realm (home.py lines 65-71). -/
def promote_sponsoring_zulip_in_realm (S : Settings) (realm : Realm) : Bool :=
  if !S.PROMOTE_SPONSORING_ZULIP then false
  else realm.plan_type = Realm.STANDARD_FREE ∨ realm.plan_type = Realm.SELF_HOSTED

/-- get_billing_info (home.py lines 74-94). -/
def get_billing_info (S : Settings) (B : BillingStore)
    (user_profile : Option UserProfile) : BillingInfo :=
  match user_profile with
  | Option.none => { show_billing := false, show_plans := false }
  | some up =>
    if S.CORPORATE_ENABLED then
      let show_billing :=
        if up.has_billing_access then
          match B.get_customer_by_realm up.realm.id with
          | Option.none => false
          | some customer =>
            if customer.sponsorship_pending then true
            else if B.plan_exists customer.id then true
            else false
        else false
      let show_plans :=
        if !up.is_guest ∧ up.realm.plan_type = Realm.LIMITED then true else false
      { show_billing := show_billing, show_plans := show_plans }
    else { show_billing := false, show_plans := false }

/-- get_user_permission_info (home.py lines 97-113). -/
def get_user_permission_info (user_profile : Option UserProfile) : UserPermissionInfo :=
  match user_profile with
  | some up =>
    { color_scheme := up.color_scheme
      is_guest := up.is_guest
      is_realm_owner := up.is_realm_owner
      is_realm_admin := up.is_realm_admin
      show_webathena := up.realm.webathena_enabled }
  | Option.none =>
    { color_scheme := UserProfile.COLOR_SCHEME_AUTOMATIC
      is_guest := false
      is_realm_admin := false
      is_realm_owner := false
      show_webathena := false }

/-- Stream record: the fields of zerver.models.Stream read by home.py.  The
recipient foreign key is modelled by its id. -/
structure Stream where
  name : String
  recipient : Nat
deriving DecidableEq

/-- A Message row, reduced to the columns the narrow override queries. -/
structure Message where
  id : Int
  recipient : Nat
deriving DecidableEq

/-- The ORM query of home.py lines 226-231:
Message.objects.filter(recipient=recipient).order_by("id").reverse()[0].id,
with the IndexError on an empty result caught and mapped to -1.  The
database's ORDER BY is modelled by an ascending sort of the matching ids. -/
def narrow_max_message_id (msgs : List Message) (recipient : Nat) : Int :=
  let filtered := msgs.filter (fun m => m.recipient = recipient)
  let ordered := List.insertionSort (fun a b : Int => a ≤ b) (filtered.map (fun m => m.id))
  match ordered.reverse with
  | [] => -1
  | x :: _ => x

/-- The narrow-override block of home.py lines 223-238, run when
narrow_stream is not None.  Narrow terms are (operator, operand) pairs.  The
final step asserts that page_params["user_settings"] is a dict (KeyError or
a failed assert is modelled as failure) and forces its
enable_desktop_notifications entry to False. -/
def narrow_override (msgs : List Message) (narrow_stream : Stream)
    (narrow_topic : Option String) (narrow : List (String × String))
    (page_params : Dict) : Option Dict :=
  let max_message_id := narrow_max_message_id msgs narrow_stream.recipient
  let pp := dictSet page_params "narrow_stream" (Value.vStr narrow_stream.name)
  let pp :=
    match narrow_topic with
    | some t => dictSet pp "narrow_topic" (Value.vStr t)
    | Option.none => pp
  let pp := dictSet pp "narrow"
    (Value.vList (narrow.map (fun term =>
      Value.vDict [("operator", Value.vStr term.1), ("operand", Value.vStr term.2)])))
  let pp := dictSet pp "max_message_id" (Value.vInt max_message_id)
  match dictGet pp "user_settings" with
  | some (Value.vDict us) =>
    some (dictSet pp "user_settings"
      (Value.vDict (dictSet us "enable_desktop_notifications" (Value.vBool false))))
  | _ => Option.none

/-- Modelled from the spec: fetch_initial_state_data (zerver/lib/events.py,
not in src/) is invoked on the anonymous path with queue_id=None; per the
spec the anonymous path performs no queue registration and the queue id is
conceptually null, so the fetched payload carries a null queue_id entry.
The rest of the payload is the environment-supplied base. -/
def fetch_initial_state_data (base : Dict) : Dict :=
  dictSet base "queue_id" Value.vNone

/-- Modelled from the spec: post_process_state (zerver/lib/events.py, not in
src/) marks the fetched payload as a non-queue-backed snapshot; no field
relevant to the claims is changed, so it is modelled as the identity. -/
def post_process_state (state : Dict) : Dict := state

/-- The external environment of build_page_params_for_home_page_load: the
event-queue subsystem results, the i18n subsystem, the apps-page URL and
the two-factor default-device lookup, plus the message store queried by the
narrow override.  register_result is the payload returned by
do_events_register on the authenticated path; fetch_base the payload
produced by fetch_initial_state_data (before its queue_id entry) on the
anonymous path.  get_and_set_request_language folds the request path
language into the environment; default_device models
bool(default_device(u)). -/
structure Env where
  register_result : Dict
  fetch_base : Dict
  language_list : Value
  apps_page_url : Value
  get_and_set_request_language : Value → String
  translation_data : String → Value
  default_device : Option UserProfile → Bool
  messages : List Message

/-- The registration/fetch payload register_ret of home.py lines 141-173:
do_events_register's result when authenticated, the post-processed
fetch_initial_state_data result when anonymous. -/
def register_ret_of (E : Env) (user_profile : Option UserProfile) : Dict :=
  match user_profile with
  | some _ => E.register_result
  | Option.none => post_process_state (fetch_initial_state_data E.fetch_base)

/-- The page_params literal of home.py lines 189-218: server settings and
the assembler-computed fields, in source order. -/
def initial_page_params (S : Settings) (B : BillingStore) (A : ActivityStore)
    (E : Env) (now : Int) (user_profile : Option UserProfile) (realm : Realm)
    (insecure_desktop_app : Bool)
    (first_in_realm prompt_for_invites needs_tutorial : Bool) : Dict :=
  let furthest_read_time := get_furthest_read_time A now user_profile
  let two_fa_enabled := S.TWO_FACTOR_AUTHENTICATION_ENABLED && user_profile.isSome
  let billing_info := get_billing_info S B user_profile
  let user_permission_info := get_user_permission_info user_profile
  [("test_suite", Value.vBool S.TEST_SUITE),
   ("insecure_desktop_app", Value.vBool insecure_desktop_app),
   ("login_page", Value.vStr S.HOME_NOT_LOGGED_IN),
   ("warn_no_email", Value.vBool S.WARN_NO_EMAIL),
   ("search_pills_enabled", Value.vBool S.SEARCH_PILLS_ENABLED),
   ("corporate_enabled", Value.vBool S.CORPORATE_ENABLED),
   ("language_list", E.language_list),
   ("needs_tutorial", Value.vBool needs_tutorial),
   ("first_in_realm", Value.vBool first_in_realm),
   ("prompt_for_invites", Value.vBool prompt_for_invites),
   ("furthest_read_time",
     match furthest_read_time with
     | some t => Value.vInt t
     | Option.none => Value.vNone),
   ("bot_types", Value.vList (get_bot_types user_profile)),
   ("two_fa_enabled", Value.vBool two_fa_enabled),
   ("apps_page_url", E.apps_page_url),
   ("show_billing", Value.vBool billing_info.show_billing),
   ("promote_sponsoring_zulip", Value.vBool (promote_sponsoring_zulip_in_realm S realm)),
   ("show_plans", Value.vBool billing_info.show_plans),
   ("show_webathena", Value.vBool user_permission_info.show_webathena),
   ("two_fa_enabled_user", Value.vBool (two_fa_enabled && E.default_device user_profile)),
   ("is_spectator", Value.vBool user_profile.isNone),
   ("no_event_queue", Value.vBool user_profile.isNone)]

/-- The merge loop of home.py lines 220-221: every key of register_ret is
written into page_params, in payload order. -/
def merge_register_ret (page_params : Dict) (register_ret : Dict) : Dict :=
  register_ret.foldl (fun pp kv => dictSet pp kv.1 kv.2) page_params

/-- build_page_params_for_home_page_load (home.py lines 116-242).  Failure
(KeyError on the payload, or the failed dict assert in the narrow override)
is modelled as Option.none; on success the result is the returned pair
(register_ret["queue_id"], page_params). -/
def build_page_params_for_home_page_load (S : Settings) (B : BillingStore)
    (A : ActivityStore) (E : Env) (now : Int)
    (user_profile : Option UserProfile) (realm : Realm)
    (insecure_desktop_app : Bool) (narrow : List (String × String))
    (narrow_stream : Option Stream) (narrow_topic : Option String)
    (first_in_realm prompt_for_invites needs_tutorial : Bool) :
    Option (Value × Dict) :=
  let register_ret := register_ret_of E user_profile
  match dictGet register_ret "user_settings" with
  | Option.none => Option.none
  | some user_settings_val =>
    match subscript user_settings_val "default_language" with
    | Option.none => Option.none
    | some default_language =>
      let request_language := E.get_and_set_request_language default_language
      let page_params := initial_page_params S B A E now user_profile realm
        insecure_desktop_app first_in_realm prompt_for_invites needs_tutorial
      let page_params := merge_register_ret page_params register_ret
      let after_narrow :=
        match narrow_stream with
        | Option.none => some page_params
        | some ns => narrow_override E.messages ns narrow_topic narrow page_params
      match after_narrow with
      | Option.none => Option.none
      | some page_params =>
        let page_params :=
          dictSet page_params "translation_data" (E.translation_data request_language)
        match dictGet register_ret "queue_id" with
        | Option.none => Option.none
        | some queue_id => some (queue_id, page_params)


/-- Fixture settings for the concrete witnesses. -/
def settings0 : Settings :=
  { CORPORATE_ENABLED := true, PROMOTE_SPONSORING_ZULIP := false,
    TWO_FACTOR_AUTHENTICATION_ENABLED := false, TEST_SUITE := false,
    HOME_NOT_LOGGED_IN := "/login/", WARN_NO_EMAIL := false,
    SEARCH_PILLS_ENABLED := false }

/-- Fixture billing store with no customer records. -/
def billing0 : BillingStore :=
  { get_customer_by_realm := fun _ => Option.none, plan_exists := fun _ => false }

/-- Fixture activity store with no activity records. -/
def activity0 : ActivityStore :=
  { get_latest_update_message_flag_activity := fun _ => Option.none }

/-- Fixture realm. -/
def realm0 : Realm := { id := 1, plan_type := Realm.LIMITED, webathena_enabled := false }

/-- Fixture authenticated user. -/
def user0 : UserProfile :=
  { id := 1, realm := realm0, color_scheme := 1, is_guest := false,
    is_realm_admin := false, is_realm_owner := false,
    has_billing_access := false, allowed_bot_types := [] }

/-- Fixture stream for the narrow witnesses. -/
def stream0 : Stream := { name := "general", recipient := 1 }

/-- Fixture environment: an authenticated registration payload whose
user_settings enables desktop notifications, and a message store with
messages 5, 9, 3 on stream0's recipient. -/
def env0 : Env :=
  { register_result :=
      [("user_settings", Value.vDict
          [("default_language", Value.vStr "en"),
           ("enable_desktop_notifications", Value.vBool true)]),
       ("queue_id", Value.vStr "q-1")],
    fetch_base := [("user_settings", Value.vDict [("default_language", Value.vStr "en")])],
    language_list := Value.vList [],
    apps_page_url := Value.vStr "/apps/",
    get_and_set_request_language := fun _ => "en",
    translation_data := fun _ => Value.vDict [],
    default_device := fun _ => false,
    messages := [{ id := 5, recipient := 1 }, { id := 9, recipient := 1 },
      { id := 3, recipient := 1 }] }

/-- Fixture environment whose registration payload carries a key colliding
with the computed is_spectator field. -/
def env9 : Env :=
  { register_result :=
      [("user_settings", Value.vDict [("default_language", Value.vStr "en")]),
       ("queue_id", Value.vStr "q-1"),
       ("is_spectator", Value.vStr "boo")],
    fetch_base := [("user_settings", Value.vDict [("default_language", Value.vStr "en")])],
    language_list := Value.vList [],
    apps_page_url := Value.vStr "/apps/",
    get_and_set_request_language := fun _ => "en",
    translation_data := fun _ => Value.vDict [],
    default_device := fun _ => false,
    messages := [] }

/-- The concrete snapshot produced by the C2 witness build: authenticated
session, narrow on stream0, env0's payload had
enable_desktop_notifications = true. -/
def page_params_c2 : Dict :=
  [("test_suite", Value.vBool false),
   ("insecure_desktop_app", Value.vBool false),
   ("login_page", Value.vStr "/login/"),
   ("warn_no_email", Value.vBool false),
   ("search_pills_enabled", Value.vBool false),
   ("corporate_enabled", Value.vBool true),
   ("language_list", Value.vList []),
   ("needs_tutorial", Value.vBool false),
   ("first_in_realm", Value.vBool false),
   ("prompt_for_invites", Value.vBool false),
   ("furthest_read_time", Value.vNone),
   ("bot_types", Value.vList
     [Value.vDict [("type_id", Value.vInt 1), ("name", Value.vStr "Generic bot"),
        ("allowed", Value.vBool false)],
      Value.vDict [("type_id", Value.vInt 2), ("name", Value.vStr "Incoming webhook"),
        ("allowed", Value.vBool false)],
      Value.vDict [("type_id", Value.vInt 3), ("name", Value.vStr "Outgoing webhook"),
        ("allowed", Value.vBool false)],
      Value.vDict [("type_id", Value.vInt 4), ("name", Value.vStr "Embedded bot"),
        ("allowed", Value.vBool false)]]),
   ("two_fa_enabled", Value.vBool false),
   ("apps_page_url", Value.vStr "/apps/"),
   ("show_billing", Value.vBool false),
   ("promote_sponsoring_zulip", Value.vBool false),
   ("show_plans", Value.vBool true),
   ("show_webathena", Value.vBool false),
   ("two_fa_enabled_user", Value.vBool false),
   ("is_spectator", Value.vBool false),
   ("no_event_queue", Value.vBool false),
   ("user_settings", Value.vDict
     [("default_language", Value.vStr "en"),
      ("enable_desktop_notifications", Value.vBool false)]),
   ("queue_id", Value.vStr "q-1"),
   ("narrow_stream", Value.vStr "general"),
   ("narrow", Value.vList []),
   ("max_message_id", Value.vInt 9),
   ("translation_data", Value.vDict [])]

/-- The concrete snapshot produced by the C3 witness build: anonymous
session, no narrow filter. -/
def page_params_c3 : Dict :=
  [("test_suite", Value.vBool false),
   ("insecure_desktop_app", Value.vBool false),
   ("login_page", Value.vStr "/login/"),
   ("warn_no_email", Value.vBool false),
   ("search_pills_enabled", Value.vBool false),
   ("corporate_enabled", Value.vBool true),
   ("language_list", Value.vList []),
   ("needs_tutorial", Value.vBool false),
   ("first_in_realm", Value.vBool false),
   ("prompt_for_invites", Value.vBool false),
   ("furthest_read_time", Value.vInt 0),
   ("bot_types", Value.vList []),
   ("two_fa_enabled", Value.vBool false),
   ("apps_page_url", Value.vStr "/apps/"),
   ("show_billing", Value.vBool false),
   ("promote_sponsoring_zulip", Value.vBool false),
   ("show_plans", Value.vBool false),
   ("show_webathena", Value.vBool false),
   ("two_fa_enabled_user", Value.vBool false),
   ("is_spectator", Value.vBool true),
   ("no_event_queue", Value.vBool true),
   ("user_settings", Value.vDict [("default_language", Value.vStr "en")]),
   ("queue_id", Value.vNone),
   ("translation_data", Value.vDict [])]

/-- The concrete snapshot produced by the C9 witness build: the payload of
env9 carries an is_spectator key that collides with the computed field. -/
def page_params_c9 : Dict :=
  [("test_suite", Value.vBool false),
   ("insecure_desktop_app", Value.vBool false),
   ("login_page", Value.vStr "/login/"),
   ("warn_no_email", Value.vBool false),
   ("search_pills_enabled", Value.vBool false),
   ("corporate_enabled", Value.vBool true),
   ("language_list", Value.vList []),
   ("needs_tutorial", Value.vBool false),
   ("first_in_realm", Value.vBool false),
   ("prompt_for_invites", Value.vBool false),
   ("furthest_read_time", Value.vNone),
   ("bot_types", Value.vList
     [Value.vDict [("type_id", Value.vInt 1), ("name", Value.vStr "Generic bot"),
        ("allowed", Value.vBool false)],
      Value.vDict [("type_id", Value.vInt 2), ("name", Value.vStr "Incoming webhook"),
        ("allowed", Value.vBool false)],
      Value.vDict [("type_id", Value.vInt 3), ("name", Value.vStr "Outgoing webhook"),
        ("allowed", Value.vBool false)],
      Value.vDict [("type_id", Value.vInt 4), ("name", Value.vStr "Embedded bot"),
        ("allowed", Value.vBool false)]]),
   ("two_fa_enabled", Value.vBool false),
   ("apps_page_url", Value.vStr "/apps/"),
   ("show_billing", Value.vBool false),
   ("promote_sponsoring_zulip", Value.vBool false),
   ("show_plans", Value.vBool true),
   ("show_webathena", Value.vBool false),
   ("two_fa_enabled_user", Value.vBool false),
   ("is_spectator", Value.vStr "boo"),
   ("no_event_queue", Value.vBool false),
   ("user_settings", Value.vDict [("default_language", Value.vStr "en")]),
   ("queue_id", Value.vStr "q-1"),
   ("translation_data", Value.vDict [])]

theorem dictGet_dictSet_self (d : Dict) (k : String) (v : Value) :
    dictGet (dictSet d k v) k = some v := by
  induction d with
  | nil => simp [dictSet, dictGet]
  | cons kv rest ih =>
    obtain ⟨k', v'⟩ := kv
    by_cases h : k = k' <;> simp [dictSet, dictGet, h, ih]

theorem dictGet_dictSet_ne (d : Dict) (k : String) (v : Value) (k' : String)
    (h : k' ≠ k) : dictGet (dictSet d k v) k' = dictGet d k' := by
  induction d with
  | nil => simp [dictSet, dictGet, h]
  | cons kv rest ih =>
    obtain ⟨k₀, v₀⟩ := kv
    by_cases hk : k = k₀
    · subst hk; simp [dictSet, dictGet, h]
    · by_cases hk' : k' = k₀ <;> simp [dictSet, dictGet, hk, hk', ih]

theorem dictGet_eq_none_iff (d : Dict) (k : String) :
    dictGet d k = Option.none ↔ ∀ kv ∈ d, kv.1 ≠ k := by
  induction d with
  | nil => simp [dictGet]
  | cons kv rest ih =>
    obtain ⟨k', v'⟩ := kv
    simp only [dictGet, List.mem_cons]
    by_cases h : k = k'
    · subst h
      rw [if_pos rfl]
      constructor
      · intro hfalse; cases hfalse
      · intro hall; exact absurd rfl (hall (k, v') (Or.inl rfl))
    · rw [if_neg h, ih]
      constructor
      · intro hall kv hkv
        rcases hkv with rfl | hm
        · exact fun he => h he.symm
        · exact hall kv hm
      · intro hall kv hkv; exact hall kv (Or.inr hkv)

theorem dictGet_merge_of_notmem (reg : Dict) (pp : Dict) (k : String)
    (h : dictGet reg k = Option.none) :
    dictGet (merge_register_ret pp reg) k = dictGet pp k := by
  induction reg generalizing pp with
  | nil => rfl
  | cons kv rest ih =>
    obtain ⟨k', v'⟩ := kv
    simp only [dictGet] at h
    by_cases hk : k = k'
    · simp [hk] at h
    · rw [if_neg hk] at h
      show dictGet (merge_register_ret (dictSet pp k' v') rest) k = dictGet pp k
      rw [ih _ h]
      exact dictGet_dictSet_ne _ _ _ _ hk

theorem dictGet_merge_of_mem (reg : Dict) (pp : Dict) (k : String) (v : Value)
    (hnd : (dictKeys reg).Nodup) (h : dictGet reg k = some v) :
    dictGet (merge_register_ret pp reg) k = some v := by
  induction reg generalizing pp with
  | nil => simp [dictGet] at h
  | cons kv rest ih =>
    obtain ⟨k', v'⟩ := kv
    simp only [dictKeys, List.map_cons, List.nodup_cons] at hnd
    obtain ⟨hk'notin, hndrest⟩ := hnd
    simp only [dictGet] at h
    show dictGet (merge_register_ret (dictSet pp k' v') rest) k = some v
    by_cases hk : k = k'
    · rw [if_pos hk] at h
      have hnone : dictGet rest k = Option.none := by
        rw [dictGet_eq_none_iff]
        intro kv hkv heq
        have hmem : kv.1 ∈ List.map (fun x => x.1) rest :=
          List.mem_map_of_mem (fun x => x.1) hkv
        rw [heq, hk] at hmem
        exact hk'notin hmem
      rw [dictGet_merge_of_notmem rest _ k hnone, hk, dictGet_dictSet_self]
      exact h
    · rw [if_neg hk] at h
      exact ih _ hndrest h

theorem pairwise_le_getLast? {l : List Int}
    (hs : List.Pairwise (fun a b : Int => a ≤ b) l) (x : Int) (hx : x ∈ l)
    (y : Int) (hy : l.getLast? = some y) : x ≤ y := by
  induction l with
  | nil => simp at hx
  | cons a rest ih =>
    rcases List.pairwise_cons.mp hs with ⟨ha, hrest⟩
    cases rest with
    | nil =>
      simp only [List.mem_singleton] at hx
      simp only [List.getLast?_singleton, Option.some.injEq] at hy
      subst hx; subst hy; exact le_refl _
    | cons b rest' =>
      rw [List.getLast?_cons_cons] at hy
      rcases List.mem_cons.mp hx with rfl | hx'
      · exact ha y (List.mem_of_mem_getLast? hy)
      · exact ih hrest hx' hy

theorem narrow_max_message_id_spec (msgs : List Message) (r : Nat) :
    ((msgs.filter (fun m => m.recipient = r)).map (fun m => m.id) = [] →
      narrow_max_message_id msgs r = -1) ∧
    (∀ i ∈ (msgs.filter (fun m => m.recipient = r)).map (fun m => m.id),
      i ≤ narrow_max_message_id msgs r) ∧
    ((msgs.filter (fun m => m.recipient = r)).map (fun m => m.id) ≠ [] →
      narrow_max_message_id msgs r ∈
        (msgs.filter (fun m => m.recipient = r)).map (fun m => m.id)) := by
  set ids := (msgs.filter (fun m => m.recipient = r)).map (fun m => m.id) with hids
  have heq : narrow_max_message_id msgs r =
      match (List.insertionSort (fun a b : Int => a ≤ b) ids).reverse with
      | [] => -1
      | x :: _ => x := rfl
  have hperm := List.perm_insertionSort (fun a b : Int => a ≤ b) ids
  have hsorted := List.sorted_insertionSort (fun a b : Int => a ≤ b) ids
  rcases hrev : (List.insertionSort (fun a b : Int => a ≤ b) ids).reverse with _ | ⟨x, rest⟩
  · have hval : narrow_max_message_id msgs r = -1 := by rw [heq, hrev]
    have hsnil : List.insertionSort (fun a b : Int => a ≤ b) ids = [] :=
      List.reverse_eq_nil_iff.mp hrev
    have hidsnil : ids = [] := ((hsnil ▸ hperm).symm).eq_nil
    refine ⟨fun _ => hval, ?_, fun hne => absurd hidsnil hne⟩
    intro i hi
    rw [hidsnil] at hi
    cases hi
  · have hval : narrow_max_message_id msgs r = x := by rw [heq, hrev]
    have hlast : (List.insertionSort (fun a b : Int => a ≤ b) ids).getLast? = some x := by
      rw [← List.head?_reverse, hrev]; rfl
    have hxmem : x ∈ ids :=
      hperm.mem_iff.mp (List.mem_of_mem_getLast? hlast)
    refine ⟨fun h => ?_, fun i hi => ?_, fun _ => hval ▸ hxmem⟩
    · rw [h] at hrev
      simp at hrev
    · rw [hval]
      exact pairwise_le_getLast? hsorted i (hperm.mem_iff.mpr hi) x hlast

theorem narrow_override_result (msgs : List Message) (ns : Stream)
    (nt : Option String) (nar : List (String × String)) (pp pp' : Dict)
    (h : narrow_override msgs ns nt nar pp = some pp') :
    dictGet pp' "max_message_id" =
      some (Value.vInt (narrow_max_message_id msgs ns.recipient)) ∧
    ∃ us, dictGet pp' "user_settings" = some (Value.vDict us) ∧
      dictGet us "enable_desktop_notifications" = some (Value.vBool false) := by
  cases nt
  all_goals
    simp only [narrow_override] at h
    split at h
    · rw [Option.some.injEq] at h
      subst h
      refine ⟨?_, _, dictGet_dictSet_self _ _ _, dictGet_dictSet_self _ _ _⟩
      rw [dictGet_dictSet_ne _ _ _ _ (by decide)]
      exact dictGet_dictSet_self _ _ _
    · simp at h

/-- C8: the narrow override is idempotent on the max-message-id field: for a
fixed stream and message store, applying the override twice yields the same
max_message_id in the snapshot as applying it once. -/
theorem C8_narrow_override_idempotent_max_id (msgs : List Message) (ns : Stream)
    (nt : Option String) (nar : List (String × String)) (pp pp1 pp2 : Dict)
    (h1 : narrow_override msgs ns nt nar pp = some pp1)
    (h2 : narrow_override msgs ns nt nar pp1 = some pp2) :
    dictGet pp2 "max_message_id" = dictGet pp1 "max_message_id" := by
  rw [(narrow_override_result _ _ _ _ _ _ h2).1,
    (narrow_override_result _ _ _ _ _ _ h1).1]

/-- C8 witness: a stream with messages 5, 9, 3; the override applied once
and then again, the max-message-id entries agree. -/
theorem C8_narrow_override_idempotent_max_id_witness :
    dictGet [("user_settings", Value.vDict [("enable_desktop_notifications", Value.vBool false)]),
             ("narrow_stream", Value.vStr "general"),
             ("narrow", Value.vList []),
             ("max_message_id", Value.vInt 9)] "max_message_id" =
    dictGet [("user_settings", Value.vDict [("enable_desktop_notifications", Value.vBool false)]),
             ("narrow_stream", Value.vStr "general"),
             ("narrow", Value.vList []),
             ("max_message_id", Value.vInt 9)] "max_message_id" :=
  C8_narrow_override_idempotent_max_id
    [{ id := 5, recipient := 1 }, { id := 9, recipient := 1 }, { id := 3, recipient := 1 }]
    { name := "general", recipient := 1 } Option.none []
    [("user_settings", Value.vDict [])] _ _ rfl rfl

/-- C6: when a narrow stream target is supplied, the override records
max_message_id = -1 when the stream's recipient has no messages (the empty
lookup is a normal outcome, not a failure), and the maximum message id among
the recipient's messages otherwise. -/
theorem C6_narrow_max_message_id (msgs : List Message) (ns : Stream)
    (nt : Option String) (nar : List (String × String)) (pp pp' : Dict)
    (h : narrow_override msgs ns nt nar pp = some pp') :
    dictGet pp' "max_message_id" =
      some (Value.vInt (narrow_max_message_id msgs ns.recipient)) ∧
    (msgs.filter (fun m => m.recipient = ns.recipient) = [] →
      narrow_max_message_id msgs ns.recipient = -1) ∧
    (∀ m ∈ msgs.filter (fun m => m.recipient = ns.recipient),
      m.id ≤ narrow_max_message_id msgs ns.recipient) ∧
    (msgs.filter (fun m => m.recipient = ns.recipient) ≠ [] →
      ∃ m ∈ msgs.filter (fun m => m.recipient = ns.recipient),
        m.id = narrow_max_message_id msgs ns.recipient) := by
  obtain ⟨hnil, hle, hmem⟩ := narrow_max_message_id_spec msgs ns.recipient
  refine ⟨(narrow_override_result _ _ _ _ _ _ h).1, ?_, ?_, ?_⟩
  · intro hf
    exact hnil (by rw [hf]; rfl)
  · intro m hm
    exact hle _ (List.mem_map_of_mem (fun m => m.id) hm)
  · intro hf
    have hne : (msgs.filter (fun m => m.recipient = ns.recipient)).map (fun m => m.id) ≠ [] := by
      intro hc
      exact hf (List.map_eq_nil_iff.mp hc)
    obtain ⟨m, hmmem, hmid⟩ := List.mem_map.mp (hmem hne)
    exact ⟨m, hmmem, hmid⟩

/-- C6 witness: an empty message store; the override succeeds and records
the sentinel -1. -/
theorem C6_narrow_max_message_id_witness :
    dictGet [("user_settings", Value.vDict [("enable_desktop_notifications", Value.vBool false)]),
             ("narrow_stream", Value.vStr "general"),
             ("narrow", Value.vList []),
             ("max_message_id", Value.vInt (-1))] "max_message_id" =
      some (Value.vInt (-1)) :=
  (C6_narrow_max_message_id []
    { name := "general", recipient := 1 } Option.none []
    [("user_settings", Value.vDict [])] _ rfl).1

theorem narrow_override_preserves (msgs : List Message) (ns : Stream)
    (nt : Option String) (nar : List (String × String)) (pp pp' : Dict)
    (k : String) (h : narrow_override msgs ns nt nar pp = some pp')
    (h1 : k ≠ "narrow_stream") (h2 : k ≠ "narrow_topic") (h3 : k ≠ "narrow")
    (h4 : k ≠ "max_message_id") (h5 : k ≠ "user_settings") :
    dictGet pp' k = dictGet pp k := by
  cases nt with
  | none =>
    simp only [narrow_override] at h
    split at h
    · rw [Option.some.injEq] at h
      subst h
      rw [dictGet_dictSet_ne _ _ _ _ h5, dictGet_dictSet_ne _ _ _ _ h4,
        dictGet_dictSet_ne _ _ _ _ h3, dictGet_dictSet_ne _ _ _ _ h1]
    · simp at h
  | some t =>
    simp only [narrow_override] at h
    split at h
    · rw [Option.some.injEq] at h
      subst h
      rw [dictGet_dictSet_ne _ _ _ _ h5, dictGet_dictSet_ne _ _ _ _ h4,
        dictGet_dictSet_ne _ _ _ _ h3, dictGet_dictSet_ne _ _ _ _ h2,
        dictGet_dictSet_ne _ _ _ _ h1]
    · simp at h

theorem narrow_override_user_settings_eq (msgs : List Message) (ns : Stream)
    (nt : Option String) (nar : List (String × String)) (pp pp' : Dict)
    (us : List (String × Value))
    (hus : dictGet pp "user_settings" = some (Value.vDict us))
    (h : narrow_override msgs ns nt nar pp = some pp') :
    dictGet pp' "user_settings" =
      some (Value.vDict (dictSet us "enable_desktop_notifications" (Value.vBool false))) := by
  cases nt with
  | none =>
    simp only [narrow_override] at h
    split at h
    · rename_i usx heq
      rw [dictGet_dictSet_ne _ _ _ _ (by decide), dictGet_dictSet_ne _ _ _ _ (by decide),
        dictGet_dictSet_ne _ _ _ _ (by decide), hus] at heq
      rw [Option.some.injEq] at h
      subst h
      obtain rfl : us = usx := by
        cases heq with
        | refl => rfl
      exact dictGet_dictSet_self _ _ _
    · simp at h
  | some t =>
    simp only [narrow_override] at h
    split at h
    · rename_i usx heq
      rw [dictGet_dictSet_ne _ _ _ _ (by decide), dictGet_dictSet_ne _ _ _ _ (by decide),
        dictGet_dictSet_ne _ _ _ _ (by decide), dictGet_dictSet_ne _ _ _ _ (by decide),
        hus] at heq
      rw [Option.some.injEq] at h
      subst h
      obtain rfl : us = usx := by
        cases heq with
        | refl => rfl
      exact dictGet_dictSet_self _ _ _
    · simp at h

/-- C2: whenever a narrow stream target is supplied and the build succeeds,
the returned snapshot's user_settings sub-mapping maps
enable_desktop_notifications to false, whatever value the registration/fetch
payload assigned to it: the narrow override runs after the registration
merge and nothing written later (only translation_data) touches it. -/
theorem C2_narrow_forces_desktop_notifications_false
    (S : Settings) (B : BillingStore) (A : ActivityStore) (E : Env) (now : Int)
    (up : Option UserProfile) (realm : Realm) (ida : Bool)
    (nar : List (String × String)) (ns : Stream) (nt : Option String)
    (f p n : Bool) (q : Value) (pp : Dict)
    (hb : build_page_params_for_home_page_load S B A E now up realm ida nar
      (some ns) nt f p n = some (q, pp)) :
    ∃ us, dictGet pp "user_settings" = some (Value.vDict us) ∧
      dictGet us "enable_desktop_notifications" = some (Value.vBool false) := by
  simp only [build_page_params_for_home_page_load] at hb
  split at hb
  · exact Option.noConfusion hb
  · split at hb
    · exact Option.noConfusion hb
    · split at hb
      · exact Option.noConfusion hb
      · rename_i pp5 hno
        split at hb
        · exact Option.noConfusion hb
        · rw [Option.some.injEq, Prod.mk.injEq] at hb
          obtain ⟨-, hpp⟩ := hb
          obtain ⟨-, us, hus, hedn⟩ := narrow_override_result _ _ _ _ _ _ hno
          refine ⟨us, ?_, hedn⟩
          rw [← hpp, dictGet_dictSet_ne _ _ _ _ (by decide)]
          exact hus

/-- C1: get_billing_info returns show_billing = true exactly when the
corporate feature is enabled, an identity is present, that identity has
billing access, a customer record exists for the identity's realm, and
either the customer's sponsorship is pending or at least one plan record
exists for that customer; for every other combination show_billing is
false. -/
theorem C1_show_billing_iff (S : Settings) (B : BillingStore)
    (up : Option UserProfile) :
    (get_billing_info S B up).show_billing = true ↔
      (S.CORPORATE_ENABLED = true ∧ ∃ u, up = some u ∧
        u.has_billing_access = true ∧
        ∃ c, B.get_customer_by_realm u.realm.id = some c ∧
          (c.sponsorship_pending = true ∨ B.plan_exists c.id = true)) := by
  cases up with
  | none => simp [get_billing_info]
  | some u =>
    by_cases hc : S.CORPORATE_ENABLED <;>
      simp only [get_billing_info, hc, if_true, if_false, Bool.false_eq_true,
        false_and, iff_false, true_and]
    · by_cases hb : u.has_billing_access <;> simp only [hb, if_true, if_false]
      · cases hcu : B.get_customer_by_realm u.realm.id with
        | none => simp [hcu]
        | some c =>
          by_cases hsp : c.sponsorship_pending <;>
            by_cases hpl : B.plan_exists c.id <;>
              simp [hcu, hsp, hpl, hb]
      · simp [hb]

/-- C1 witness: a concrete instance with all gates satisfied. -/
theorem C1_show_billing_iff_witness :
    (get_billing_info
      { CORPORATE_ENABLED := true, PROMOTE_SPONSORING_ZULIP := false,
        TWO_FACTOR_AUTHENTICATION_ENABLED := false, TEST_SUITE := false,
        HOME_NOT_LOGGED_IN := "/login/", WARN_NO_EMAIL := false,
        SEARCH_PILLS_ENABLED := false }
      { get_customer_by_realm := fun _ => some { id := 7, sponsorship_pending := true },
        plan_exists := fun _ => false }
      (some { id := 1,
              realm := { id := 3, plan_type := Realm.LIMITED, webathena_enabled := false },
              color_scheme := 1, is_guest := false, is_realm_admin := false,
              is_realm_owner := false, has_billing_access := true,
              allowed_bot_types := [] })).show_billing = true :=
  (C1_show_billing_iff _ _ _).mpr
    ⟨rfl, _, rfl, rfl, _, rfl, Or.inl rfl⟩

/-- C5: get_billing_info returns show_plans = true exactly when the
corporate feature is enabled, an identity is present, that identity is not
a guest, and the realm's plan type is Limited; in particular an
authenticated guest with corporate enabled and a Limited plan gets
show_plans = false. -/
theorem C5_show_plans_iff (S : Settings) (B : BillingStore)
    (up : Option UserProfile) :
    ((get_billing_info S B up).show_plans = true ↔
      (S.CORPORATE_ENABLED = true ∧ ∃ u, up = some u ∧ u.is_guest = false ∧
        u.realm.plan_type = Realm.LIMITED)) ∧
    (∀ u, up = some u → u.is_guest = true →
      (get_billing_info S B up).show_plans = false) := by
  constructor
  · cases up with
    | none => simp [get_billing_info]
    | some u =>
      by_cases hc : S.CORPORATE_ENABLED <;>
        simp only [get_billing_info, hc, if_true, if_false, Bool.false_eq_true,
          false_and, iff_false, true_and]
      · by_cases hg : u.is_guest <;>
          by_cases hp : u.realm.plan_type = Realm.LIMITED <;>
            simp [hg, hp]
  · intro u hu hg
    subst hu
    by_cases hc : S.CORPORATE_ENABLED <;>
      simp [get_billing_info, hc, hg]

/-- C5 witness: the guest scenario of the claim, corporate enabled and a
Limited-plan realm, yields show_plans = false. -/
theorem C5_show_plans_iff_witness :
    (get_billing_info
      { CORPORATE_ENABLED := true, PROMOTE_SPONSORING_ZULIP := false,
        TWO_FACTOR_AUTHENTICATION_ENABLED := false, TEST_SUITE := false,
        HOME_NOT_LOGGED_IN := "/login/", WARN_NO_EMAIL := false,
        SEARCH_PILLS_ENABLED := false }
      { get_customer_by_realm := fun _ => Option.none,
        plan_exists := fun _ => false }
      (some { id := 2,
              realm := { id := 3, plan_type := Realm.LIMITED, webathena_enabled := false },
              color_scheme := 1, is_guest := true, is_realm_admin := false,
              is_realm_owner := false, has_billing_access := true,
              allowed_bot_types := [] })).show_plans = false :=
  (C5_show_plans_iff _ _ _).2 _ rfl rfl

/-- C7: get_user_permission_info projects the fixed anonymous defaults when
the identity is absent, and copies color_scheme, is_guest, is_realm_admin,
is_realm_owner and the realm's webathena_enabled flag when present. -/
theorem C7_user_permission_info (up : Option UserProfile) :
    (up = Option.none →
      get_user_permission_info up =
        { color_scheme := UserProfile.COLOR_SCHEME_AUTOMATIC, is_guest := false,
          is_realm_admin := false, is_realm_owner := false,
          show_webathena := false }) ∧
    (∀ u, up = some u →
      get_user_permission_info up =
        { color_scheme := u.color_scheme, is_guest := u.is_guest,
          is_realm_admin := u.is_realm_admin, is_realm_owner := u.is_realm_owner,
          show_webathena := u.realm.webathena_enabled }) := by
  constructor
  · intro h; subst h; rfl
  · intro u h; subst h; rfl

/-- C7 witness: the anonymous projection evaluated concretely. -/
theorem C7_user_permission_info_witness :
    get_user_permission_info Option.none =
      { color_scheme := UserProfile.COLOR_SCHEME_AUTOMATIC, is_guest := false,
        is_realm_admin := false, is_realm_owner := false,
        show_webathena := false } :=
  (C7_user_permission_info Option.none).1 rfl

/-- C10: when the corporate feature is disabled, or the identity is absent,
or the identity lacks billing access, get_billing_info is independent of
the billing store: any two stores give the identical BillingInfo, and
show_billing is false. -/
theorem C10_billing_noninterference (S : Settings) (up : Option UserProfile)
    (h : S.CORPORATE_ENABLED = false ∨ up = Option.none ∨
      ∃ u, up = some u ∧ u.has_billing_access = false)
    (B1 B2 : BillingStore) :
    get_billing_info S B1 up = get_billing_info S B2 up ∧
      (get_billing_info S B1 up).show_billing = false := by
  rcases h with hc | hup | ⟨u, hup, hb⟩
  · cases up with
    | none => simp [get_billing_info]
    | some u => simp [get_billing_info, hc]
  · subst hup; simp [get_billing_info]
  · subst hup
    by_cases hc : S.CORPORATE_ENABLED <;> simp [get_billing_info, hc, hb]

/-- C10 witness: concrete stores that disagree everywhere, an identity
without billing access. -/
theorem C10_billing_noninterference_witness :
    get_billing_info
        { CORPORATE_ENABLED := true, PROMOTE_SPONSORING_ZULIP := false,
          TWO_FACTOR_AUTHENTICATION_ENABLED := false, TEST_SUITE := false,
          HOME_NOT_LOGGED_IN := "/login/", WARN_NO_EMAIL := false,
          SEARCH_PILLS_ENABLED := false }
        { get_customer_by_realm := fun _ => some { id := 7, sponsorship_pending := true },
          plan_exists := fun _ => true }
        (some { id := 4,
                realm := { id := 3, plan_type := Realm.LIMITED, webathena_enabled := false },
                color_scheme := 1, is_guest := false, is_realm_admin := false,
                is_realm_owner := false, has_billing_access := false,
                allowed_bot_types := [] }) =
      get_billing_info
        { CORPORATE_ENABLED := true, PROMOTE_SPONSORING_ZULIP := false,
          TWO_FACTOR_AUTHENTICATION_ENABLED := false, TEST_SUITE := false,
          HOME_NOT_LOGGED_IN := "/login/", WARN_NO_EMAIL := false,
          SEARCH_PILLS_ENABLED := false }
        { get_customer_by_realm := fun _ => Option.none,
          plan_exists := fun _ => false }
        (some { id := 4,
                realm := { id := 3, plan_type := Realm.LIMITED, webathena_enabled := false },
                color_scheme := 1, is_guest := false, is_realm_admin := false,
                is_realm_owner := false, has_billing_access := false,
                allowed_bot_types := [] }) :=
  (C10_billing_noninterference _ _ (Or.inr (Or.inr ⟨_, rfl, rfl⟩)) _ _).1

/-- C4: get_furthest_read_time returns the current wall-clock time when the
identity is absent; when present and no update-message-flag activity record
exists it returns null; otherwise it returns the record's last-visit time
converted to a UTC epoch timestamp. -/
theorem C4_furthest_read_time (A : ActivityStore) (now : Int)
    (up : Option UserProfile) :
    (up = Option.none → get_furthest_read_time A now up = some now) ∧
    (∀ u, up = some u →
      A.get_latest_update_message_flag_activity u = Option.none →
      get_furthest_read_time A now up = Option.none) ∧
    (∀ u ua, up = some u →
      A.get_latest_update_message_flag_activity u = some ua →
      get_furthest_read_time A now up =
        some (calendar_timegm_utctimetuple ua.last_visit)) := by
  refine ⟨fun h => by subst h; rfl, fun u h ha => ?_, fun u ua h ha => ?_⟩
  · subst h; simp [get_furthest_read_time, ha]
  · subst h; simp [get_furthest_read_time, ha]

/-- C4 witness: an identity with an activity record whose last visit is
epoch 1000. -/
theorem C4_furthest_read_time_witness :
    get_furthest_read_time
        { get_latest_update_message_flag_activity :=
            fun _ => some { last_visit := { utc_epoch := 1000 } } }
        42
        (some { id := 5,
                realm := { id := 3, plan_type := Realm.LIMITED, webathena_enabled := false },
                color_scheme := 1, is_guest := false, is_realm_admin := false,
                is_realm_owner := false, has_billing_access := false,
                allowed_bot_types := [] }) = some 1000 :=
  (C4_furthest_read_time _ 42 _).2.2 _ { last_visit := { utc_epoch := 1000 } } rfl rfl

/-- C3: for an anonymous session with no narrow filter, a successful build
returns a null queue id and a snapshot with is_spectator = true,
no_event_queue = true and bot_types = [], provided the external fetch
payload does not itself carry those three keys (the events subsystem never
produces them). -/
theorem C3_anonymous_no_narrow
    (S : Settings) (B : BillingStore) (A : ActivityStore) (E : Env) (now : Int)
    (realm : Realm) (ida : Bool) (nar : List (String × String))
    (nt : Option String) (f p n : Bool) (q : Value) (pp : Dict)
    (h1 : dictGet E.fetch_base "is_spectator" = Option.none)
    (h2 : dictGet E.fetch_base "no_event_queue" = Option.none)
    (h3 : dictGet E.fetch_base "bot_types" = Option.none)
    (hb : build_page_params_for_home_page_load S B A E now Option.none realm ida nar
      Option.none nt f p n = some (q, pp)) :
    q = Value.vNone ∧
    dictGet pp "is_spectator" = some (Value.vBool true) ∧
    dictGet pp "no_event_queue" = some (Value.vBool true) ∧
    dictGet pp "bot_types" = some (Value.vList []) := by
  simp only [build_page_params_for_home_page_load, register_ret_of,
    post_process_state, fetch_initial_state_data] at hb
  split at hb
  · exact Option.noConfusion hb
  · split at hb
    · exact Option.noConfusion hb
    · split at hb
      · exact Option.noConfusion hb
      · rename_i q' hq
        rw [dictGet_dictSet_self, Option.some.injEq] at hq
        rw [Option.some.injEq, Prod.mk.injEq] at hb
        obtain ⟨hqq, hpp⟩ := hb
        have hkey : ∀ k : String, k ≠ "queue_id" → k ≠ "translation_data" →
            dictGet E.fetch_base k = Option.none →
            dictGet pp k =
              dictGet (initial_page_params S B A E now Option.none realm ida f p n) k := by
          intro k hkq hkt hkf
          rw [← hpp, dictGet_dictSet_ne _ _ _ _ hkt]
          rw [dictGet_merge_of_notmem]
          rw [dictGet_dictSet_ne _ _ _ _ hkq]
          exact hkf
        refine ⟨hqq ▸ hq.symm ▸ rfl, ?_, ?_, ?_⟩
        · rw [hkey "is_spectator" (by decide) (by decide) h1]
          simp [initial_page_params, dictGet]
        · rw [hkey "no_event_queue" (by decide) (by decide) h2]
          simp [initial_page_params, dictGet]
        · rw [hkey "bot_types" (by decide) (by decide) h3]
          simp [initial_page_params, dictGet, get_bot_types]

/-- C9: registration/fetch keys are merged after the computed fields, so
(with the payload's keys distinct, as for a Python dict) every payload key
keeps its payload value in the final snapshot — silently overriding a
computed field of the same name — except the keys the narrow override
rewrites and translation_data, written last; the nested user_settings value
is only changed at enable_desktop_notifications; and every computed field
whose name is not a payload key keeps its computed value. -/
theorem C9_merge_order_frame
    (S : Settings) (B : BillingStore) (A : ActivityStore) (E : Env) (now : Int)
    (up : Option UserProfile) (realm : Realm) (ida : Bool)
    (nar : List (String × String)) (nst : Option Stream) (nt : Option String)
    (f p n : Bool) (q : Value) (pp : Dict)
    (hnd : (dictKeys (register_ret_of E up)).Nodup)
    (hb : build_page_params_for_home_page_load S B A E now up realm ida nar
      nst nt f p n = some (q, pp)) :
    (∀ k v, dictGet (register_ret_of E up) k = some v →
      k ∉ ["narrow_stream", "narrow_topic", "narrow", "max_message_id",
        "translation_data"] →
      (k = "user_settings" → nst = Option.none) →
      dictGet pp k = some v) ∧
    (∀ ns, nst = some ns →
      ∀ us, dictGet (register_ret_of E up) "user_settings" = some (Value.vDict us) →
        ∃ us', dictGet pp "user_settings" = some (Value.vDict us') ∧
          ∀ k, k ≠ "enable_desktop_notifications" → dictGet us' k = dictGet us k) ∧
    (∀ k, k ∈ dictKeys (initial_page_params S B A E now up realm ida f p n) →
      dictGet (register_ret_of E up) k = Option.none →
      dictGet pp k =
        dictGet (initial_page_params S B A E now up realm ida f p n) k) := by
  have hkeys : ∀ x ∈ ["test_suite", "insecure_desktop_app", "login_page",
      "warn_no_email", "search_pills_enabled", "corporate_enabled",
      "language_list", "needs_tutorial", "first_in_realm", "prompt_for_invites",
      "furthest_read_time", "bot_types", "two_fa_enabled", "apps_page_url",
      "show_billing", "promote_sponsoring_zulip", "show_plans", "show_webathena",
      "two_fa_enabled_user", "is_spectator", "no_event_queue"],
      x ≠ "translation_data" ∧ x ≠ "narrow_stream" ∧ x ≠ "narrow_topic" ∧
      x ≠ "narrow" ∧ x ≠ "max_message_id" ∧ x ≠ "user_settings" := by decide
  simp only [build_page_params_for_home_page_load] at hb
  split at hb
  · exact Option.noConfusion hb
  · split at hb
    · exact Option.noConfusion hb
    · split at hb
      · exact Option.noConfusion hb
      · rename_i pp5 hno
        split at hb
        · exact Option.noConfusion hb
        · rename_i q' hq
          rw [Option.some.injEq, Prod.mk.injEq] at hb
          obtain ⟨hqq, hpp⟩ := hb
          cases nst with
          | none =>
            simp only [Option.some.injEq] at hno
            subst hno
            refine ⟨?_, ?_, ?_⟩
            · intro k v hkv hknotin hkus
              simp only [List.mem_cons, List.not_mem_nil, or_false, not_or] at hknotin
              obtain ⟨-, -, -, -, hktd⟩ := hknotin
              rw [← hpp, dictGet_dictSet_ne _ _ _ _ hktd]
              exact dictGet_merge_of_mem _ _ _ _ hnd hkv
            · intro ns hns
              exact Option.noConfusion hns
            · intro k hk hkreg
              have hk21 : k ∈ ["test_suite", "insecure_desktop_app", "login_page",
                  "warn_no_email", "search_pills_enabled", "corporate_enabled",
                  "language_list", "needs_tutorial", "first_in_realm",
                  "prompt_for_invites", "furthest_read_time", "bot_types",
                  "two_fa_enabled", "apps_page_url", "show_billing",
                  "promote_sponsoring_zulip", "show_plans", "show_webathena",
                  "two_fa_enabled_user", "is_spectator", "no_event_queue"] := by
                simpa [initial_page_params, dictKeys] using hk
              obtain ⟨h1, h2, h3, h4, h5, h6⟩ := hkeys k hk21
              rw [← hpp, dictGet_dictSet_ne _ _ _ _ h1,
                dictGet_merge_of_notmem _ _ _ hkreg]
          | some ns =>
            simp only [] at hno
            refine ⟨?_, ?_, ?_⟩
            · intro k v hkv hknotin hkus
              simp only [List.mem_cons, List.not_mem_nil, or_false, not_or] at hknotin
              obtain ⟨hkns, hknt, hknar, hkmx, hktd⟩ := hknotin
              by_cases hkus' : k = "user_settings"
              · exact Option.noConfusion (hkus hkus')
              · rw [← hpp, dictGet_dictSet_ne _ _ _ _ hktd,
                  narrow_override_preserves _ _ _ _ _ _ _ hno hkns hknt hknar hkmx hkus']
                exact dictGet_merge_of_mem _ _ _ _ hnd hkv
            · intro ns' hns' us hus
              obtain rfl : ns' = ns := by
                cases hns' with
                | refl => rfl
              have hus_merged := dictGet_merge_of_mem _
                (initial_page_params S B A E now up realm ida f p n) _ _ hnd hus
              have h5us := narrow_override_user_settings_eq _ _ _ _ _ _ _ hus_merged hno
              refine ⟨dictSet us "enable_desktop_notifications" (Value.vBool false), ?_, ?_⟩
              · rw [← hpp, dictGet_dictSet_ne _ _ _ _ (by decide)]
                exact h5us
              · intro k hk
                exact dictGet_dictSet_ne _ _ _ _ hk
            · intro k hk hkreg
              have hk21 : k ∈ ["test_suite", "insecure_desktop_app", "login_page",
                  "warn_no_email", "search_pills_enabled", "corporate_enabled",
                  "language_list", "needs_tutorial", "first_in_realm",
                  "prompt_for_invites", "furthest_read_time", "bot_types",
                  "two_fa_enabled", "apps_page_url", "show_billing",
                  "promote_sponsoring_zulip", "show_plans", "show_webathena",
                  "two_fa_enabled_user", "is_spectator", "no_event_queue"] := by
                simpa [initial_page_params, dictKeys] using hk
              obtain ⟨h1, h2, h3, h4, h5, h6⟩ := hkeys k hk21
              rw [← hpp, dictGet_dictSet_ne _ _ _ _ h1,
                narrow_override_preserves _ _ _ _ _ _ _ hno h2 h3 h4 h5 h6,
                dictGet_merge_of_notmem _ _ _ hkreg]

/-- C2 witness: the concrete narrow build flips the payload's
enable_desktop_notifications = true to false in the final snapshot. -/
theorem C2_narrow_forces_desktop_notifications_false_witness :
    ∃ us, dictGet page_params_c2 "user_settings" = some (Value.vDict us) ∧
      dictGet us "enable_desktop_notifications" = some (Value.vBool false) :=
  C2_narrow_forces_desktop_notifications_false settings0 billing0 activity0 env0
    0 (some user0) realm0 false [] stream0 Option.none false false false
    (Value.vStr "q-1") page_params_c2 rfl

/-- C3 witness: the concrete anonymous build returns a null queue id with
is_spectator, no_event_queue true and empty bot_types. -/
theorem C3_anonymous_no_narrow_witness :
    Value.vNone = Value.vNone ∧
    dictGet page_params_c3 "is_spectator" = some (Value.vBool true) ∧
    dictGet page_params_c3 "no_event_queue" = some (Value.vBool true) ∧
    dictGet page_params_c3 "bot_types" = some (Value.vList []) :=
  C3_anonymous_no_narrow settings0 billing0 activity0 env0 0 realm0 false []
    Option.none false false false Value.vNone page_params_c3 rfl rfl rfl rfl

/-- C9 witness: the payload's colliding is_spectator value wins over the
computed field in the final snapshot. -/
theorem C9_merge_order_frame_witness :
    dictGet page_params_c9 "is_spectator" = some (Value.vStr "boo") :=
  (C9_merge_order_frame settings0 billing0 activity0 env9 0 (some user0) realm0
    false [] Option.none Option.none false false false (Value.vStr "q-1")
    page_params_c9 (by decide) rfl).1 "is_spectator" (Value.vStr "boo") rfl
    (by decide) (fun h => absurd h (by decide))


end Home
